import Mathlib

/-!
Verification of the Clerky CrewAI legal-crew backend
(`src/crewai_backend/crew.py`) against its natural-language specification.

The development shallowly embeds the routing (intent classification) and
orchestration code of `crew.py`:

* `classify_intent` — keyword-scoring classifier (crew.py lines 297-350);
* the four task-template builders (`create_research_task`,
  `create_analysis_task`, `create_drafting_task`, `create_strategy_task`,
  crew.py lines 198-292), rendered as `TaskSpec` records holding the exact
  interpolated strings;
* `run_single_agent` and `run_full_crew` (crew.py lines 355-479), whose
  result dictionaries are embedded as ordered association lists so that the
  exact key sets of the success and failure shapes are observable.

The external Completion Engine (CrewAI `Crew.kickoff` with
`Process.sequential`) is outside the repository; it is modelled from the
spec as an oracle `engine : TaskSpec → Except String StepOut` run strictly
sequentially by `kickoff`, which also records the trace of engine calls
actually issued.

Python specifics carried over: `str.lower` is `pyLower` (character-wise
lowercasing), `in` on strings is `strContains` (unbounded substring
matching), dict literals keep insertion order, `x or default` on strings is
an emptiness test, and `max(scores, key=scores.get)` returns the first key
attaining the maximum in insertion order.
-/

namespace Clerky

/-- Model of Python `str.lower` (character-wise; the embedded keyword lists
and inputs are ASCII, where `Char.toLower` coincides with Python). -/
def pyLower (s : String) : String := String.mk (s.data.map Char.toLower)

/-- Model of Python `needle in hay`: unbounded substring matching, no word
boundaries (the spec flags this as intentional). The empty needle matches
every string, exactly as in Python. -/
def strContains (hay needle : String) : Bool :=
  hay.data.tails.any (fun t => needle.data.isPrefixOf t)

/- ── Intent classification (crew.py lines 297-350) ─────────────────── -/

/-- Researcher generic keywords, +3 each (crew.py lines 303-305). -/
def research_kw : List String :=
  ["research", "case law", "precedent", "statute", "find", "search",
   "cite", "citation", "authority", "holding", "ruling", "sol",
   "limitation", "rule", "regulation", "code", "preemption"]

/-- Kansas high-confidence researcher phrases, +6 if any (crew.py line 309). -/
def ks_phrases : List String :=
  ["k.s.a", "ksa ", "kansas statute", "chapter 60", "10th circuit"]

/-- Missouri high-confidence researcher phrases, +6 if any (crew.py line 311). -/
def mo_phrases : List String :=
  ["rsmo", "r.s.mo", "missouri statute", "missouri supreme court rule", "8th circuit"]

/-- Drafter generic keywords, +3 each (crew.py lines 315-317). -/
def draft_kw : List String :=
  ["draft", "write", "prepare", "create", "generate", "motion", "complaint",
   "letter", "brief", "contract", "agreement", "petition", "template",
   "engagement", "demand", "discovery request"]

/-- Analyst generic keywords, +3 each (crew.py lines 327-329). -/
def analyst_kw : List String :=
  ["risk", "assess", "evaluat", "analyz", "review", "strength", "weakness",
   "exposure", "damage", "inconsisten", "deposition", "enforceab", "score",
   "audit", "calculate", "comparative fault"]

/-- Strategist generic keywords, +3 each (crew.py lines 339-341). -/
def strategist_kw : List String :=
  ["strateg", "settle", "settlement", "timeline", "calendar", "deadline",
   "budget", "scenario", "option", "plan", "mediat", "arbitrat", "trial",
   "recommend", "proactive", "missing", "next step", "appeal"]

/-- Researcher score: 3 per generic keyword present, +6 for any Kansas
phrase, +6 for any Missouri phrase (crew.py lines 306-312).
`msg` is the already-lowercased message. -/
def score_researcher (msg : String) : Nat :=
  3 * research_kw.countP (fun k => strContains msg k)
  + (if ks_phrases.any (fun p => strContains msg p) then 6 else 0)
  + (if mo_phrases.any (fun p => strContains msg p) then 6 else 0)

/-- Drafter score: 3 per generic keyword, +5 for a "draft a/the/my" phrase,
+6 for "motion to" (crew.py lines 318-324). -/
def score_drafter (msg : String) : Nat :=
  3 * draft_kw.countP (fun k => strContains msg k)
  + (if strContains msg "draft a" || strContains msg "draft the" || strContains msg "draft my"
     then 5 else 0)
  + (if strContains msg "motion to" then 6 else 0)

/-- Analyst score: 3 per generic keyword, +5 for "risk assess", +4 for
"what am i missing" (crew.py lines 330-336). -/
def score_analyst (msg : String) : Nat :=
  3 * analyst_kw.countP (fun k => strContains msg k)
  + (if strContains msg "risk assess" then 5 else 0)
  + (if strContains msg "what am i missing" then 4 else 0)

/-- Strategist score: 3 per generic keyword, +5 for "what am i missing"
(crew.py lines 342-346). -/
def score_strategist (msg : String) : Nat :=
  3 * strategist_kw.countP (fun k => strContains msg k)
  + (if strContains msg "what am i missing" then 5 else 0)

/-- Maximum of the four role scores of the lowercased message. -/
def intent_max (message : String) : Nat :=
  let msg := pyLower message
  max (max (max (score_researcher msg) (score_analyst msg)) (score_drafter msg))
    (score_strategist msg)

/-- Python `max(scores, key=scores.get)` over the dict literal
`{"researcher": _, "analyst": _, "drafter": _, "strategist": _}`: the first
key, in insertion order, attaining the maximal score (crew.py line 349). -/
def intent_argmax (message : String) : String :=
  let msg := pyLower message
  let m := intent_max message
  if score_researcher msg = m then "researcher"
  else if score_analyst msg = m then "analyst"
  else if score_drafter msg = m then "drafter"
  else "strategist"

/-- `classify_intent` (crew.py lines 297-350): the first maximal role, or
"strategist" when every score is zero.  `scores[best]` in the source is
exactly the maximum, so the zero test is a test on `intent_max`. -/
def classify_intent (message : String) : String :=
  if 0 < intent_max message then intent_argmax message else "strategist"

/- ── Jurisdiction rendering (crew.py lines 374-379 and 432-437) ─────── -/

/-- The jurisdiction display dict literal of `run_single_agent` and
`run_full_crew`. -/
def jx_table : List (String × String) :=
  [("kansas", "Kansas"), ("missouri", "Missouri"),
   ("federal", "Federal"), ("multistate", "Kansas & Missouri")]

/-- Python `{...}.get(jurisdiction.lower(), jurisdiction)`. -/
def jx_display (jurisdiction : String) : String :=
  (List.lookup (pyLower jurisdiction) jx_table).getD jurisdiction

/- ── Task templates (crew.py lines 198-292) ─────────────────────────── -/

/-- A rendered task: the role key of the agent it is bound to, the rendered
description, and the expected-output rubric (spec §3 TaskSpec). -/
structure TaskSpec where
  role : String
  description : String
  expected_output : String
deriving DecidableEq

/-- `create_research_task` (crew.py lines 198-218); `agent` is the registry
key of the Agent object passed in the source. -/
def create_research_task (agent query jurisdiction : String) : TaskSpec :=
  { role := agent
    description :=
      "Research the following legal question under " ++ jurisdiction ++ " law:\n\n"
      ++ query ++ "\n\n"
      ++ "Provide:\n"
      ++ "1. Relevant statutes with pinpoint citations and URLs\n"
      ++ "2. Key case law with holdings and citations\n"
      ++ "3. SOL analysis and deadline flags\n"
      ++ "4. Comparative fault implications (KS 50% bar / MO pure comparative)\n"
      ++ "5. Procedural requirements specific to " ++ jurisdiction ++ "\n"
      ++ "6. Risks and verification notes\n"
      ++ "7. Recommended next actions"
    expected_output :=
      "Structured legal research memo with: Summary, Statutory Authority "
      ++ "(with URLs), Case Law, SOL & Comparative Fault flags, Procedural "
      ++ "Framework, Risks, and Next Actions." }

/-- `create_analysis_task` (crew.py lines 221-244); `matter_facts or
'Not specified'` is the Python string-truthiness default. -/
def create_analysis_task (agent query jurisdiction matter_facts : String) : TaskSpec :=
  { role := agent
    description :=
      "Perform a comprehensive risk analysis for the following matter "
      ++ "under " ++ jurisdiction ++ " law:\n\n"
      ++ "Query: " ++ query ++ "\n"
      ++ "Matter Facts: " ++ (if matter_facts = "" then "Not specified" else matter_facts)
      ++ "\n\n"
      ++ "Score risks 1-10 on these factors:\n"
      ++ "- Liability Exposure\n"
      ++ "- Damages/Exposure\n"
      ++ "- SOL/Deadlines\n"
      ++ "- Comparative Fault Risk\n"
      ++ "- Evidence Gaps\n"
      ++ "- Deadline Management\n\n"
      ++ "Include SWOT analysis and damages scenarios."
    expected_output :=
      "Risk scorecard (table with factor/score/risk/notes), overall risk "
      ++ "rating, SWOT analysis, comparative fault analysis, damages scenarios, "
      ++ "and recommended actions." }

/-- `create_drafting_task` (crew.py lines 247-268); `document_type or
'legal document'` and `matter_facts or 'General template'` are Python
string-truthiness defaults. -/
def create_drafting_task (agent query jurisdiction document_type matter_facts : String) :
    TaskSpec :=
  { role := agent
    description :=
      "Draft a " ++ (if document_type = "" then "legal document" else document_type)
      ++ " under " ++ jurisdiction ++ " law:\n\n"
      ++ "Instructions: " ++ query ++ "\n"
      ++ "Matter Facts: " ++ (if matter_facts = "" then "General template" else matter_facts)
      ++ "\n\n"
      ++ "Include all required sections per " ++ jurisdiction ++ " rules:\n"
      ++ "- Proper caption and formatting\n"
      ++ "- All substantive sections\n"
      ++ "- Jurisdiction-specific requirements\n"
      ++ "- Certificate of Service\n"
      ++ "- Citation footnotes"
    expected_output :=
      "Complete " ++ (if document_type = "" then "legal document" else document_type)
      ++ " in Markdown format with proper caption, "
      ++ "all required sections, jurisdiction-specific requirements, "
      ++ "citations with [Footnote] format, and review checklist." }

/-- `create_strategy_task` (crew.py lines 271-292). -/
def create_strategy_task (agent query jurisdiction matter_facts : String) : TaskSpec :=
  { role := agent
    description :=
      "Develop a litigation strategy for the following under " ++ jurisdiction
      ++ " law:\n\n"
      ++ "Query: " ++ query ++ "\n"
      ++ "Matter Facts: " ++ (if matter_facts = "" then "Not specified" else matter_facts)
      ++ "\n\n"
      ++ "Provide:\n"
      ++ "1. Three settlement strategy options with expected value calculations\n"
      ++ "2. Litigation timeline with key deadlines\n"
      ++ "3. Budget projection\n"
      ++ "4. Venue/forum selection analysis (if multi-state)\n"
      ++ "5. Proactive \x27what am I missing?\x27 checklist\n"
      ++ "6. Recommended next 3 actions"
    expected_output :=
      "Strategic plan with: settlement options (3 scenarios with $$ ranges), "
      ++ "timeline table, budget projection, venue analysis, proactive checklist, "
      ++ "and prioritized next actions." }

/- ── Pipeline orchestration (crew.py lines 355-479) ─────────────────── -/

/-- Keys of the agent registry dict returned by `create_agents`
(crew.py lines 188-193), in insertion order. -/
def agents_keys : List String := ["researcher", "analyst", "drafter", "strategist"]

/-- Drafter triggers of `run_full_crew` (crew.py line 445). -/
def drafter_triggers : List String :=
  ["draft", "write", "prepare", "motion", "complaint", "letter"]

/-- The condition of crew.py line 445: `document_type` truthy, or the
lowercased query contains a trigger keyword. -/
def wants_drafter (query document_type : String) : Bool :=
  (document_type != "") || drafter_triggers.any (fun k => strContains (pyLower query) k)

/-- The ordered task list built by `run_full_crew` (crew.py lines 439-450):
researcher, analyst, optionally drafter, then strategist; `jurisdiction`
here is the already-rendered `jx_display` value. -/
def full_tasks (query jurisdiction matter_facts document_type : String) : List TaskSpec :=
  [create_research_task "researcher" query jurisdiction,
   create_analysis_task "analyst" query jurisdiction matter_facts]
  ++ (if wants_drafter query document_type
      then [create_drafting_task "drafter" query jurisdiction document_type matter_facts]
      else [])
  ++ [create_strategy_task "strategist" query jurisdiction matter_facts]

/-- Role resolution of `run_single_agent` (crew.py lines 368-369): the
forced role when non-empty, else the classifier's choice. -/
def resolve_agent (query agent_type : String) : String :=
  if agent_type = "" then classify_intent query else agent_type

/-- Task dispatch of `run_single_agent` (crew.py lines 381-390); the final
branch mirrors the source's unreachable `else` (a foreign key has already
raised `KeyError` at `agents[agent_type]`). -/
def single_task (agent_type query jurisdiction matter_facts document_type : String) :
    TaskSpec :=
  if agent_type = "researcher" then create_research_task "researcher" query jurisdiction
  else if agent_type = "analyst" then
    create_analysis_task "analyst" query jurisdiction matter_facts
  else if agent_type = "drafter" then
    create_drafting_task "drafter" query jurisdiction document_type matter_facts
  else if agent_type = "strategist" then
    create_strategy_task "strategist" query jurisdiction matter_facts
  else create_research_task agent_type query jurisdiction

/-- Which branch of the dispatch chain of crew.py lines 381-390 fires. -/
def single_task_kind (agent_type : String) : String :=
  if agent_type = "researcher" then "research"
  else if agent_type = "analyst" then "analysis"
  else if agent_type = "drafter" then "drafting"
  else if agent_type = "strategist" then "strategy"
  else "research"

/-- One completion step's output: generated text and token usage (spec §6,
`complete(...) -> {text, tokenUsage}`). -/
structure StepOut where
  text : String
  total_tokens : Nat
deriving DecidableEq

/-- Modelled from the spec: the external Completion Engine run by CrewAI's
`Crew.kickoff` with `Process.sequential` (not part of this repository).
Tasks run strictly sequentially; the returned text is the final task's
text, token usage accumulates across steps, and a failure at any step
raises immediately, leaving the remaining tasks unexecuted (spec §4.3,
§5, §6).  The first component is the trace of engine calls issued. -/
def kickoffAux (engine : TaskSpec → Except String StepOut) (acc : StepOut) :
    List TaskSpec → List TaskSpec × Except String StepOut
  | [] => ([], Except.ok acc)
  | t :: ts =>
    match engine t with
    | Except.error e => ([t], Except.error e)
    | Except.ok o =>
      let r := kickoffAux engine ⟨o.text, acc.total_tokens + o.total_tokens⟩ ts
      (t :: r.1, r.2)

/-- Modelled from the spec: `crew.kickoff()` on a task list, starting from
an empty output (see `kickoffAux`). -/
def kickoff (engine : TaskSpec → Except String StepOut) (tasks : List TaskSpec) :
    List TaskSpec × Except String StepOut :=
  kickoffAux engine ⟨"", 0⟩ tasks

/-- Result-dictionary values: the Python dicts of crew.py hold booleans,
strings, integers (token usage) and string lists. -/
inductive Value where
  | bool (b : Bool)
  | str (s : String)
  | nat (n : Nat)
  | strList (l : List String)
deriving DecidableEq

/-- Python `str(KeyError(k))`: the repr of the missing key. -/
def key_error (k : String) : String := "\x27" ++ k ++ "\x27"

/-- The result dict of `run_single_agent` as a function of the crew
outcome: success literal of crew.py lines 402-409, failure literal of
lines 412-418 (the single `except` handler). -/
def single_result (agent_sel jurisdiction cfg_model : String) :
    Except String StepOut → List (String × Value)
  | Except.ok out =>
    [("success", Value.bool true),
     ("agent_type", Value.str agent_sel),
     ("content", Value.str out.text),
     ("jurisdiction", Value.str jurisdiction),
     ("model", Value.str cfg_model),
     ("token_usage", Value.nat out.total_tokens)]
  | Except.error e =>
    [("success", Value.bool false),
     ("agent_type", Value.str (if agent_sel = "" then "unknown" else agent_sel)),
     ("error", Value.str e),
     ("content", Value.str ""),
     ("jurisdiction", Value.str jurisdiction)]

/-- `run_single_agent` (crew.py lines 355-418).  `engine` is the external
Completion Engine, `cfg_model` the model name read from configuration.
Returns the trace of engine calls issued together with the result dict.
A forced role outside the registry raises `KeyError` at
`agents[agent_type]` (line 371), caught by the same `except` handler,
before any task is built or any engine call is made. -/
def run_single_agent (engine : TaskSpec → Except String StepOut)
    (cfg_model query jurisdiction agent_type matter_facts document_type : String) :
    List TaskSpec × List (String × Value) :=
  let agent_sel := resolve_agent query agent_type
  if agent_sel ∈ agents_keys then
    let r := kickoff engine
      [single_task agent_sel query (jx_display jurisdiction) matter_facts document_type]
    (r.1, single_result agent_sel jurisdiction cfg_model r.2)
  else
    ([], single_result agent_sel jurisdiction cfg_model
           (Except.error (key_error agent_sel)))

/-- The result dict of `run_full_crew` as a function of the crew outcome:
success literal of crew.py lines 461-470 (note `agents_used` is
`list(agents.keys())`, the whole registry, and `tasks_completed` is
`len(tasks)`), failure literal of lines 472-479. -/
def full_result (jurisdiction cfg_model : String) (task_count : Nat) :
    Except String StepOut → List (String × Value)
  | Except.ok out =>
    [("success", Value.bool true),
     ("agent_type", Value.str "full_crew"),
     ("content", Value.str out.text),
     ("jurisdiction", Value.str jurisdiction),
     ("model", Value.str cfg_model),
     ("agents_used", Value.strList agents_keys),
     ("tasks_completed", Value.nat task_count),
     ("token_usage", Value.nat out.total_tokens)]
  | Except.error e =>
    [("success", Value.bool false),
     ("agent_type", Value.str "full_crew"),
     ("error", Value.str e),
     ("content", Value.str ""),
     ("jurisdiction", Value.str jurisdiction)]

/-- `run_full_crew` (crew.py lines 421-479).  Returns the trace of engine
calls issued together with the result dict. -/
def run_full_crew (engine : TaskSpec → Except String StepOut)
    (cfg_model query jurisdiction matter_facts document_type : String) :
    List TaskSpec × List (String × Value) :=
  let tasks := full_tasks query (jx_display jurisdiction) matter_facts document_type
  let r := kickoff engine tasks
  (r.1, full_result jurisdiction cfg_model tasks.length r.2)

/-- An always-succeeding Completion Engine, for concrete evaluations. -/
def okEngine : TaskSpec → Except String StepOut := fun _ => Except.ok ⟨"output", 1⟩

/-- An always-failing Completion Engine, for concrete evaluations. -/
def badEngine : TaskSpec → Except String StepOut := fun _ => Except.error "LLM failure"

/-- An engine that fails exactly on the analyst task (the 2nd of the three
full-mode tasks for a trigger-free query), for concrete evaluations. -/
def failSecondEngine : TaskSpec → Except String StepOut := fun t =>
  if t.role = "analyst" then Except.error "LLM down" else Except.ok ⟨"ok", 2⟩

end Clerky

namespace Clerky

/- ── Helper lemmas ──────────────────────────────────────────────────── -/

/-- Every keyword or phrase the classifier can award points for. -/
def all_keywords : List String :=
  research_kw ++ ks_phrases ++ mo_phrases
  ++ draft_kw ++ ["draft a", "draft the", "draft my", "motion to"]
  ++ analyst_kw ++ ["risk assess", "what am i missing"]
  ++ strategist_kw

/-- The first argument of a four-fold maximum is the maximum, or some
earlier-listed argument is strictly below it and a later one attains it:
the case analysis behind first-wins tie-breaking. -/
theorem first_max_cases (r a d s : Nat) :
    (r = max (max (max r a) d) s)
    ∨ (r < max (max (max r a) d) s ∧ a = max (max (max r a) d) s)
    ∨ (r < max (max (max r a) d) s ∧ a < max (max (max r a) d) s
       ∧ d = max (max (max r a) d) s)
    ∨ (r < max (max (max r a) d) s ∧ a < max (max (max r a) d) s
       ∧ d < max (max (max r a) d) s ∧ s = max (max (max r a) d) s) := by
  have h1 := Nat.le_max_left r a
  have h2 := Nat.le_max_right r a
  have h3 := Nat.le_max_left (max r a) d
  have h4 := Nat.le_max_right (max r a) d
  have h5 := Nat.le_max_left (max (max r a) d) s
  have h6 := Nat.le_max_right (max (max r a) d) s
  rcases max_choice r a with e1 | e1 <;>
    rcases max_choice (max r a) d with e2 | e2 <;>
      rcases max_choice (max (max r a) d) s with e3 | e3 <;> omega

/-- The role of the task built by the single-agent dispatch is the selected
agent key. -/
theorem single_task_role (a q jx mf dt : String) :
    (single_task a q jx mf dt).role = a := by
  unfold single_task
  repeat' split
  all_goals simp_all [create_research_task, create_analysis_task, create_drafting_task,
    create_strategy_task]

/-- Sequential kickoff on a task list whose first engine failure is at task
`t`: every task before `t` runs, `t` runs and fails, and no later task is
ever submitted to the engine. -/
theorem kickoffAux_append_fail (engine : TaskSpec → Except String StepOut)
    (e : String) (t : TaskSpec) (post : List TaskSpec) :
    ∀ (pre : List TaskSpec) (acc : StepOut),
      (∀ ts ∈ pre, ∃ o, engine ts = Except.ok o) → engine t = Except.error e →
      kickoffAux engine acc (pre ++ t :: post) = (pre ++ [t], Except.error e) := by
  intro pre
  induction pre with
  | nil =>
    intro acc _ ht
    simp [kickoffAux, ht]
  | cons p ps ih =>
    intro acc hpre ht
    obtain ⟨o, ho⟩ := hpre p (by simp)
    have hrec := ih ⟨o.text, acc.total_tokens + o.total_tokens⟩
      (fun ts hts => hpre ts (by simp [hts])) ht
    simp [kickoffAux, ho, hrec]

/- ── C6 ─────────────────────────────────────────────────────────────── -/

/-- C6: for every input text whose lowercasing contains no classifier
keyword or phrase of any role, every role's score is zero and
`classify_intent` returns "strategist". -/
theorem classify_intent_zero_score_fallback (text : String)
    (h : ∀ k ∈ all_keywords, strContains (pyLower text) k = false) :
    score_researcher (pyLower text) = 0 ∧ score_analyst (pyLower text) = 0
    ∧ score_drafter (pyLower text) = 0 ∧ score_strategist (pyLower text) = 0
    ∧ classify_intent text = "strategist" := by
  have hcount : ∀ (l : List String), (∀ k ∈ l, k ∈ all_keywords) →
      l.countP (fun k => strContains (pyLower text) k) = 0 := by
    intro l hl
    rw [List.countP_eq_zero]
    intro k hk
    simp [h k (hl k hk)]
  have hany : ∀ (l : List String), (∀ k ∈ l, k ∈ all_keywords) →
      l.any (fun k => strContains (pyLower text) k) = false := by
    intro l hl
    rw [List.any_eq_false]
    intro k hk
    simp [h k (hl k hk)]
  have hr : score_researcher (pyLower text) = 0 := by
    have h1 := hcount research_kw (by intro k hk; simp [all_keywords]; tauto)
    have h2 := hany ks_phrases (by intro k hk; simp [all_keywords]; tauto)
    have h3 := hany mo_phrases (by intro k hk; simp [all_keywords]; tauto)
    simp [score_researcher, h1, h2, h3]
  have ha : score_analyst (pyLower text) = 0 := by
    have h1 := hcount analyst_kw (by intro k hk; simp [all_keywords]; tauto)
    have h2 := h "risk assess" (by decide)
    have h3 := h "what am i missing" (by decide)
    simp [score_analyst, h1, h2, h3]
  have hd : score_drafter (pyLower text) = 0 := by
    have h1 := hcount draft_kw (by intro k hk; simp [all_keywords]; tauto)
    have h2 := h "draft a" (by decide)
    have h3 := h "draft the" (by decide)
    have h4 := h "draft my" (by decide)
    have h5 := h "motion to" (by decide)
    simp [score_drafter, h1, h2, h3, h4, h5]
  have hs : score_strategist (pyLower text) = 0 := by
    have h1 := hcount strategist_kw (by intro k hk; simp [all_keywords]; tauto)
    have h2 := h "what am i missing" (by decide)
    simp [score_strategist, h1, h2]
  have hm : intent_max text = 0 := by
    simp [intent_max, hr, ha, hd, hs]
  exact ⟨hr, ha, hd, hs, by simp [classify_intent, hm]⟩

/-- Witness for C6: "hello" matches nothing and classifies as strategist. -/
theorem classify_intent_zero_score_fallback_witness :
    classify_intent "hello" = "strategist" :=
  (classify_intent_zero_score_fallback "hello" (by decide)).2.2.2.2

end Clerky

namespace Clerky

/- ── C5 ─────────────────────────────────────────────────────────────── -/

/-- C5 counterexample: on "hello" two or more roles (indeed all four) reach
the maximum classifier score, the first role attaining that maximum in
enumeration order is researcher, yet `classify_intent` returns strategist —
so the claim fails as stated when the shared maximum is zero. -/
theorem classify_intent_tie_counterexample :
    score_researcher (pyLower "hello") = intent_max "hello"
    ∧ score_analyst (pyLower "hello") = intent_max "hello"
    ∧ intent_argmax "hello" = "researcher"
    ∧ classify_intent "hello" = "strategist"
    ∧ ("strategist" : String) ≠ "researcher" := by
  refine ⟨by decide, by decide, by decide, by decide, by decide⟩

/-- C5 (amended): for every input text whose maximum classifier score is
positive, `classify_intent` returns the first role attaining that maximum
in the fixed enumeration order researcher, analyst, drafter, strategist
(when all scores are zero the result is strategist instead, see C6). -/
theorem classify_intent_positive_tie_break (text : String)
    (h : 0 < intent_max text) :
    classify_intent text = intent_argmax text
    ∧ ((score_researcher (pyLower text) = intent_max text
        ∧ intent_argmax text = "researcher")
      ∨ (score_researcher (pyLower text) < intent_max text
        ∧ score_analyst (pyLower text) = intent_max text
        ∧ intent_argmax text = "analyst")
      ∨ (score_researcher (pyLower text) < intent_max text
        ∧ score_analyst (pyLower text) < intent_max text
        ∧ score_drafter (pyLower text) = intent_max text
        ∧ intent_argmax text = "drafter")
      ∨ (score_researcher (pyLower text) < intent_max text
        ∧ score_analyst (pyLower text) < intent_max text
        ∧ score_drafter (pyLower text) < intent_max text
        ∧ score_strategist (pyLower text) = intent_max text
        ∧ intent_argmax text = "strategist")) := by
  have hmax : intent_max text
      = max (max (max (score_researcher (pyLower text)) (score_analyst (pyLower text)))
          (score_drafter (pyLower text))) (score_strategist (pyLower text)) := rfl
  have har : intent_argmax text
      = (if score_researcher (pyLower text) = intent_max text then "researcher"
        else if score_analyst (pyLower text) = intent_max text then "analyst"
        else if score_drafter (pyLower text) = intent_max text then "drafter"
        else "strategist") := rfl
  refine ⟨by simp [classify_intent, h], ?_⟩
  rcases first_max_cases (score_researcher (pyLower text)) (score_analyst (pyLower text))
      (score_drafter (pyLower text)) (score_strategist (pyLower text)) with
    h1 | ⟨h1, h2⟩ | ⟨h1, h2, h3⟩ | ⟨h1, h2, h3, h4⟩
  · rw [← hmax] at h1
    exact Or.inl ⟨h1, by rw [har, if_pos h1]⟩
  · rw [← hmax] at h1 h2
    exact Or.inr (Or.inl ⟨h1, h2, by rw [har, if_neg (Nat.ne_of_lt h1), if_pos h2]⟩)
  · rw [← hmax] at h1 h2 h3
    exact Or.inr (Or.inr (Or.inl ⟨h1, h2, h3,
      by rw [har, if_neg (Nat.ne_of_lt h1), if_neg (Nat.ne_of_lt h2), if_pos h3]⟩))
  · rw [← hmax] at h1 h2 h3 h4
    exact Or.inr (Or.inr (Or.inr ⟨h1, h2, h3, h4,
      by rw [har, if_neg (Nat.ne_of_lt h1), if_neg (Nat.ne_of_lt h2),
        if_neg (Nat.ne_of_lt h3)]⟩))

/-- Witness for C5 (amended): "find risk" matches exactly one generic
researcher keyword ("find", +3) and one generic analyst keyword
("risk", +3); the positive tie resolves to researcher. -/
theorem classify_intent_positive_tie_break_witness :
    0 < intent_max "find risk"
    ∧ score_researcher (pyLower "find risk") = 3
    ∧ score_analyst (pyLower "find risk") = 3
    ∧ classify_intent "find risk" = "researcher" := by
  have h : 0 < intent_max "find risk" := by decide
  have hc := classify_intent_positive_tie_break "find risk" h
  refine ⟨h, by decide, by decide, ?_⟩
  rw [hc.1]
  decide

/- ── C7 ─────────────────────────────────────────────────────────────── -/

/-- C7: the jurisdiction value rendered into the task text is the lookup
kansas→"Kansas", missouri→"Missouri", federal→"Federal",
multistate→"Kansas & Missouri" applied to the lowercased value; a value
whose lowercasing is not in the table passes through verbatim, case
preserved; and the rendered value is what the task builders interpolate. -/
theorem jx_display_table_and_passthrough :
    jx_display "kansas" = "Kansas"
    ∧ jx_display "missouri" = "Missouri"
    ∧ jx_display "federal" = "Federal"
    ∧ jx_display "multistate" = "Kansas & Missouri"
    ∧ (∀ j, List.lookup (pyLower j) jx_table = none → jx_display j = j)
    ∧ (∀ q j, (create_research_task "researcher" q (jx_display j)).description
        = "Research the following legal question under " ++ jx_display j ++ " law:\n\n"
          ++ q ++ "\n\n"
          ++ "Provide:\n"
          ++ "1. Relevant statutes with pinpoint citations and URLs\n"
          ++ "2. Key case law with holdings and citations\n"
          ++ "3. SOL analysis and deadline flags\n"
          ++ "4. Comparative fault implications (KS 50% bar / MO pure comparative)\n"
          ++ "5. Procedural requirements specific to " ++ jx_display j ++ "\n"
          ++ "6. Risks and verification notes\n"
          ++ "7. Recommended next actions") := by
  refine ⟨by decide, by decide, by decide, by decide, ?_, fun q j => rfl⟩
  intro j hj
  simp [jx_display, hj]

/-- Witness for C7: an unmapped jurisdiction ("Texas") is rendered
verbatim, original case preserved. -/
theorem jx_display_passthrough_witness : jx_display "Texas" = "Texas" :=
  jx_display_table_and_passthrough.2.2.2.2.1 "Texas" (by decide)

end Clerky

namespace Clerky

/- ── C3 ─────────────────────────────────────────────────────────────── -/

/-- C3: `run_full_crew` builds its task sequence in the order researcher,
analyst, conditionally drafter, then strategist; the drafter task is
present iff `document_type` is non-empty or the lowercased query contains a
trigger substring; strategist is always last; with the drafter present the
sequence has four tasks with drafter immediately preceding strategist and
the reported `tasks_completed` of a successful run is 4. -/
theorem run_full_task_order (query jurisdiction matter_facts document_type : String)
    (engine : TaskSpec → Except String StepOut) (cfg_model : String) :
    ((full_tasks query (jx_display jurisdiction) matter_facts document_type).map TaskSpec.role
      = if wants_drafter query document_type
        then ["researcher", "analyst", "drafter", "strategist"]
        else ["researcher", "analyst", "strategist"])
    ∧ (wants_drafter query document_type = true
        ↔ (document_type ≠ ""
          ∨ ∃ k ∈ drafter_triggers, strContains (pyLower query) k = true))
    ∧ ((full_tasks query (jx_display jurisdiction) matter_facts document_type).map
        TaskSpec.role).getLast? = some "strategist"
    ∧ (wants_drafter query document_type = true →
        (full_tasks query (jx_display jurisdiction) matter_facts document_type).length = 4
        ∧ (full_tasks query (jx_display jurisdiction) matter_facts document_type).map
            TaskSpec.role = ["researcher", "analyst", "drafter", "strategist"]
        ∧ ∀ out, (kickoff engine (full_tasks query (jx_display jurisdiction) matter_facts
              document_type)).2 = Except.ok out →
            List.lookup "tasks_completed"
              (run_full_crew engine cfg_model query jurisdiction matter_facts
                document_type).2
              = some (Value.nat 4)) := by
  have hiff : wants_drafter query document_type = true
      ↔ (document_type ≠ "" ∨ ∃ k ∈ drafter_triggers, strContains (pyLower query) k = true) := by
    simp [wants_drafter, List.any_eq_true, bne_iff_ne]
  by_cases hw : wants_drafter query document_type = true
  · have htasks : full_tasks query (jx_display jurisdiction) matter_facts document_type
        = [create_research_task "researcher" query (jx_display jurisdiction),
           create_analysis_task "analyst" query (jx_display jurisdiction) matter_facts,
           create_drafting_task "drafter" query (jx_display jurisdiction) document_type
             matter_facts,
           create_strategy_task "strategist" query (jx_display jurisdiction) matter_facts] := by
      simp [full_tasks, hw]
    refine ⟨?_, hiff, ?_, ?_⟩
    · rw [htasks, if_pos hw]
      simp [create_research_task, create_analysis_task, create_drafting_task,
        create_strategy_task]
    · rw [htasks]
      simp [create_research_task, create_analysis_task, create_drafting_task,
        create_strategy_task]
    · intro _
      refine ⟨by rw [htasks]; rfl, ?_, ?_⟩
      · rw [htasks]
        simp [create_research_task, create_analysis_task, create_drafting_task,
          create_strategy_task]
      · intro out hk
        have hres : (run_full_crew engine cfg_model query jurisdiction matter_facts
            document_type).2
            = full_result jurisdiction cfg_model
                (full_tasks query (jx_display jurisdiction) matter_facts document_type).length
                (kickoff engine (full_tasks query (jx_display jurisdiction) matter_facts
                  document_type)).2 := rfl
        rw [hres, hk, htasks]
        rfl
  · have hw' : wants_drafter query document_type = false := by
      simpa using hw
    have htasks : full_tasks query (jx_display jurisdiction) matter_facts document_type
        = [create_research_task "researcher" query (jx_display jurisdiction),
           create_analysis_task "analyst" query (jx_display jurisdiction) matter_facts,
           create_strategy_task "strategist" query (jx_display jurisdiction) matter_facts] := by
      simp [full_tasks, hw']
    refine ⟨?_, hiff, ?_, ?_⟩
    · rw [htasks, if_neg hw]
      simp [create_research_task, create_analysis_task, create_strategy_task]
    · rw [htasks]
      simp [create_research_task, create_analysis_task, create_strategy_task]
    · intro hcontra
      exact absurd hcontra hw

set_option maxRecDepth 10000 in
/-- Witness for C3: a query containing the trigger "draft" yields the
four-task pipeline and a successful run reports `tasks_completed = 4`. -/
theorem run_full_task_order_witness :
    wants_drafter "please draft a letter" "" = true
    ∧ List.lookup "tasks_completed"
        (run_full_crew okEngine "gpt-5-mini" "please draft a letter" "kansas" "" "").2
      = some (Value.nat 4) := by
  have hw : wants_drafter "please draft a letter" "" = true := by decide
  refine ⟨hw, ?_⟩
  exact (((run_full_task_order "please draft a letter" "kansas" "" "" okEngine
    "gpt-5-mini").2.2.2 hw).2.2) ⟨"output", 4⟩ rfl

end Clerky

namespace Clerky

/- ── C1 ─────────────────────────────────────────────────────────────── -/

set_option maxRecDepth 10000 in
/-- C1 counterexample: for the trigger-free query "hello" with empty
`document_type`, a successful `run_full_crew` reports
`agents_used = ["researcher", "analyst", "drafter", "strategist"]` — the
whole agent registry — not `["researcher", "analyst", "strategist"]` as the
claim states, even though only three tasks ran (`tasks_completed = 3`). -/
theorem run_full_agents_used_counterexample :
    wants_drafter "hello" "" = false
    ∧ List.lookup "agents_used"
        (run_full_crew okEngine "gpt-5-mini" "hello" "missouri" "" "").2
      = some (Value.strList ["researcher", "analyst", "drafter", "strategist"])
    ∧ List.lookup "tasks_completed"
        (run_full_crew okEngine "gpt-5-mini" "hello" "missouri" "" "").2
      = some (Value.nat 3)
    ∧ Value.strList ["researcher", "analyst", "drafter", "strategist"]
      ≠ Value.strList ["researcher", "analyst", "strategist"] := by
  refine ⟨by decide, by decide, by decide, by decide⟩

/-- C1 (amended): on a query with no drafter triggers and empty
`document_type`, `run_full_crew` builds exactly the researcher, analyst and
strategist tasks in that order, and a successful run reports
`tasks_completed = 3`; `agents_used`, however, always lists all four
registry roles (`list(agents.keys())`), regardless of which roles ran. -/
theorem run_full_no_drafter_roles (query jurisdiction matter_facts cfg_model : String)
    (engine : TaskSpec → Except String StepOut)
    (h : wants_drafter query "" = false) :
    (full_tasks query (jx_display jurisdiction) matter_facts "").map TaskSpec.role
      = ["researcher", "analyst", "strategist"]
    ∧ (∀ out, (kickoff engine
          (full_tasks query (jx_display jurisdiction) matter_facts "")).2
          = Except.ok out →
        List.lookup "tasks_completed"
            (run_full_crew engine cfg_model query jurisdiction matter_facts "").2
          = some (Value.nat 3)
        ∧ List.lookup "agents_used"
            (run_full_crew engine cfg_model query jurisdiction matter_facts "").2
          = some (Value.strList ["researcher", "analyst", "drafter", "strategist"])) := by
  have htasks : full_tasks query (jx_display jurisdiction) matter_facts ""
      = [create_research_task "researcher" query (jx_display jurisdiction),
         create_analysis_task "analyst" query (jx_display jurisdiction) matter_facts,
         create_strategy_task "strategist" query (jx_display jurisdiction) matter_facts] := by
    simp [full_tasks, h]
  constructor
  · rw [htasks]
    simp [create_research_task, create_analysis_task, create_strategy_task]
  · intro out hk
    have hres : (run_full_crew engine cfg_model query jurisdiction matter_facts "").2
        = full_result jurisdiction cfg_model
            (full_tasks query (jx_display jurisdiction) matter_facts "").length
            (kickoff engine (full_tasks query (jx_display jurisdiction) matter_facts "")).2 :=
      rfl
    rw [hres, hk, htasks]
    exact ⟨rfl, rfl⟩

set_option maxRecDepth 10000 in
/-- Witness for C1 (amended): concrete trigger-free successful run. -/
theorem run_full_no_drafter_roles_witness :
    (full_tasks "hello" (jx_display "missouri") "" "").map TaskSpec.role
      = ["researcher", "analyst", "strategist"]
    ∧ List.lookup "tasks_completed"
        (run_full_crew okEngine "gpt-5-mini" "hello" "missouri" "" "").2
      = some (Value.nat 3) := by
  have h := run_full_no_drafter_roles "hello" "missouri" "" "gpt-5-mini" okEngine (by decide)
  exact ⟨h.1, (h.2 ⟨"output", 3⟩ rfl).1⟩

/- ── C2 ─────────────────────────────────────────────────────────────── -/

/-- C2 counterexample: the successful and failed results of
`run_single_agent` do not have the same set of fields — the success dict
carries `model` and `token_usage` but no `error`, the failure dict carries
`error` but neither `model` nor `token_usage` — so the two key lists are
not even permutations of one another. -/
theorem result_shape_counterexample :
    (run_single_agent okEngine "gpt-5-mini" "q" "missouri" "researcher" "" "").2.map Prod.fst
      = ["success", "agent_type", "content", "jurisdiction", "model", "token_usage"]
    ∧ (run_single_agent badEngine "gpt-5-mini" "q" "missouri" "researcher" "" "").2.map Prod.fst
      = ["success", "agent_type", "error", "content", "jurisdiction"]
    ∧ ¬ ((run_single_agent okEngine "gpt-5-mini" "q" "missouri" "researcher" "" "").2.map
          Prod.fst).Perm
        ((run_single_agent badEngine "gpt-5-mini" "q" "missouri" "researcher" "" "").2.map
          Prod.fst) := by
  refine ⟨by decide, by decide, by decide⟩

/-- C2 (amended): every result of `run_single_agent` has the key list
success, agent_type, content, jurisdiction, model, token_usage (when
`success` is true) or success, agent_type, error, content, jurisdiction
(when `success` is false), and likewise for `run_full_crew` with
agents_used and tasks_completed added on success: the shared fields are
success, agent_type, content and jurisdiction; `error` exists only on
failure, while `model`, `token_usage` (and for the full crew `agents_used`,
`tasks_completed`) exist only on success. -/
theorem result_shapes (engine : TaskSpec → Except String StepOut)
    (cfg_model query jurisdiction agent_type matter_facts document_type : String) :
    (((run_single_agent engine cfg_model query jurisdiction agent_type matter_facts
          document_type).2.map Prod.fst
        = ["success", "agent_type", "content", "jurisdiction", "model", "token_usage"]
      ∧ List.lookup "success" (run_single_agent engine cfg_model query jurisdiction
          agent_type matter_facts document_type).2 = some (Value.bool true))
     ∨ ((run_single_agent engine cfg_model query jurisdiction agent_type matter_facts
          document_type).2.map Prod.fst
        = ["success", "agent_type", "error", "content", "jurisdiction"]
      ∧ List.lookup "success" (run_single_agent engine cfg_model query jurisdiction
          agent_type matter_facts document_type).2 = some (Value.bool false)))
    ∧ (((run_full_crew engine cfg_model query jurisdiction matter_facts
          document_type).2.map Prod.fst
        = ["success", "agent_type", "content", "jurisdiction", "model", "agents_used",
           "tasks_completed", "token_usage"]
      ∧ List.lookup "success" (run_full_crew engine cfg_model query jurisdiction
          matter_facts document_type).2 = some (Value.bool true))
     ∨ ((run_full_crew engine cfg_model query jurisdiction matter_facts
          document_type).2.map Prod.fst
        = ["success", "agent_type", "error", "content", "jurisdiction"]
      ∧ List.lookup "success" (run_full_crew engine cfg_model query jurisdiction
          matter_facts document_type).2 = some (Value.bool false))) := by
  constructor
  · by_cases hmem : resolve_agent query agent_type ∈ agents_keys
    · cases hk : (kickoff engine [single_task (resolve_agent query agent_type) query
          (jx_display jurisdiction) matter_facts document_type]).2 with
      | ok out =>
        left
        have hres : (run_single_agent engine cfg_model query jurisdiction agent_type
            matter_facts document_type).2
            = single_result (resolve_agent query agent_type) jurisdiction cfg_model
                (Except.ok out) := by
          simp [run_single_agent, hmem, hk]
        rw [hres]
        exact ⟨rfl, rfl⟩
      | error e =>
        right
        have hres : (run_single_agent engine cfg_model query jurisdiction agent_type
            matter_facts document_type).2
            = single_result (resolve_agent query agent_type) jurisdiction cfg_model
                (Except.error e) := by
          simp [run_single_agent, hmem, hk]
        rw [hres]
        exact ⟨rfl, rfl⟩
    · right
      have hres : (run_single_agent engine cfg_model query jurisdiction agent_type
          matter_facts document_type).2
          = single_result (resolve_agent query agent_type) jurisdiction cfg_model
              (Except.error (key_error (resolve_agent query agent_type))) := by
        simp [run_single_agent, hmem]
      rw [hres]
      exact ⟨rfl, rfl⟩
  · cases hk : (kickoff engine (full_tasks query (jx_display jurisdiction) matter_facts
        document_type)).2 with
    | ok out =>
      left
      have hres : (run_full_crew engine cfg_model query jurisdiction matter_facts
          document_type).2
          = full_result jurisdiction cfg_model
              (full_tasks query (jx_display jurisdiction) matter_facts document_type).length
              (Except.ok out) := by
        simp [run_full_crew, hk]
      rw [hres]
      exact ⟨rfl, rfl⟩
    | error e =>
      right
      have hres : (run_full_crew engine cfg_model query jurisdiction matter_facts
          document_type).2
          = full_result jurisdiction cfg_model
              (full_tasks query (jx_display jurisdiction) matter_facts document_type).length
              (Except.error e) := by
        simp [run_full_crew, hk]
      rw [hres]
      exact ⟨rfl, rfl⟩

end Clerky

namespace Clerky

/- ── C4 ─────────────────────────────────────────────────────────────── -/

/-- C4: if the Completion Engine fails at any step of the full pipeline,
`run_full_crew` issues no further engine calls (the trace stops at the
failing task), and returns the failure dict: `success = false`, `error`
populated from the failure, `content = ""`, and no `token_usage` or partial
content of the already-completed steps (the failure dict has exactly the
five fields listed). -/
theorem run_full_abort_on_failure (engine : TaskSpec → Except String StepOut)
    (cfg_model query jurisdiction matter_facts document_type e : String)
    (pre post : List TaskSpec) (t : TaskSpec)
    (hsplit : full_tasks query (jx_display jurisdiction) matter_facts document_type
        = pre ++ t :: post)
    (hpre : ∀ ts ∈ pre, ∃ o, engine ts = Except.ok o)
    (ht : engine t = Except.error e) :
    (run_full_crew engine cfg_model query jurisdiction matter_facts document_type).1
      = pre ++ [t]
    ∧ (run_full_crew engine cfg_model query jurisdiction matter_facts document_type).2
      = [("success", Value.bool false), ("agent_type", Value.str "full_crew"),
         ("error", Value.str e), ("content", Value.str ""),
         ("jurisdiction", Value.str jurisdiction)] := by
  have hk : kickoff engine (full_tasks query (jx_display jurisdiction) matter_facts
      document_type) = (pre ++ [t], Except.error e) := by
    rw [kickoff, hsplit]
    exact kickoffAux_append_fail engine e t post pre ⟨"", 0⟩ hpre ht
  refine ⟨?_, ?_⟩ <;> simp [run_full_crew, hk, full_result]

set_option maxRecDepth 10000 in
/-- Witness for C4: an engine failing on the analyst task — the 2nd of the
three sequential tasks of a trigger-free full run — yields the failure
dict, and the strategist (3rd) task is never submitted. -/
theorem run_full_abort_on_failure_witness :
    (run_full_crew failSecondEngine "gpt-5-mini" "hello" "missouri" "" "").1
      = [create_research_task "researcher" "hello" "Missouri",
         create_analysis_task "analyst" "hello" "Missouri" ""]
    ∧ (run_full_crew failSecondEngine "gpt-5-mini" "hello" "missouri" "" "").2
      = [("success", Value.bool false), ("agent_type", Value.str "full_crew"),
         ("error", Value.str "LLM down"), ("content", Value.str ""),
         ("jurisdiction", Value.str "missouri")] := by
  refine run_full_abort_on_failure failSecondEngine "gpt-5-mini" "hello" "missouri" "" ""
    "LLM down"
    [create_research_task "researcher" "hello" "Missouri"]
    [create_strategy_task "strategist" "hello" "Missouri" ""]
    (create_analysis_task "analyst" "hello" "Missouri" "")
    (by decide) ?_ rfl
  intro ts hts
  rw [List.mem_singleton] at hts
  subst hts
  exact ⟨⟨"ok", 2⟩, rfl⟩

/- ── C8 ─────────────────────────────────────────────────────────────── -/

/-- C8: two requests identical except for jurisdiction take the same
control-flow path — the classifier never reads the jurisdiction
(`classify_intent` and `resolve_agent` take no jurisdiction argument), the
single-agent dispatch selects the same role, and the full pipeline builds
the same number of tasks with the same role sequence; the jurisdiction only
changes the rendered text of those tasks. -/
theorem jurisdiction_no_control_flow
    (query agent_type matter_facts document_type j1 j2 : String) :
    (single_task (resolve_agent query agent_type) query (jx_display j1) matter_facts
        document_type).role
      = (single_task (resolve_agent query agent_type) query (jx_display j2) matter_facts
          document_type).role
    ∧ (full_tasks query (jx_display j1) matter_facts document_type).map TaskSpec.role
      = (full_tasks query (jx_display j2) matter_facts document_type).map TaskSpec.role
    ∧ (full_tasks query (jx_display j1) matter_facts document_type).length
      = (full_tasks query (jx_display j2) matter_facts document_type).length := by
  refine ⟨by rw [single_task_role, single_task_role], ?_, ?_⟩ <;>
    by_cases hw : wants_drafter query document_type = true <;>
      simp [full_tasks, hw, create_research_task, create_analysis_task,
        create_drafting_task, create_strategy_task]

/- ── C9 ─────────────────────────────────────────────────────────────── -/

/-- C9: a non-empty forced role outside the registry makes
`run_single_agent` fail fast — the `KeyError` at `agents[agent_type]` is
raised before any task is built, so no Completion Engine call is issued
(empty trace, hence also no retry) and the request fails with the
`KeyError` text rather than being recovered onto some other agent. -/
theorem run_single_unknown_role (engine : TaskSpec → Except String StepOut)
    (cfg_model query jurisdiction agent_type matter_facts document_type : String)
    (hne : agent_type ≠ "")
    (hmem : agent_type ∉ agents_keys) :
    (run_single_agent engine cfg_model query jurisdiction agent_type matter_facts
        document_type).1 = []
    ∧ (run_single_agent engine cfg_model query jurisdiction agent_type matter_facts
        document_type).2
      = [("success", Value.bool false), ("agent_type", Value.str agent_type),
         ("error", Value.str (key_error agent_type)), ("content", Value.str ""),
         ("jurisdiction", Value.str jurisdiction)] := by
  have hres : resolve_agent query agent_type = agent_type := by
    simp [resolve_agent, hne]
  constructor <;> simp [run_single_agent, hres, hmem, single_result, hne]

/-- Witness for C9: the unknown forced role "paralegal". -/
theorem run_single_unknown_role_witness :
    (run_single_agent okEngine "gpt-5-mini" "q" "kansas" "paralegal" "" "").1 = []
    ∧ (run_single_agent okEngine "gpt-5-mini" "q" "kansas" "paralegal" "" "").2
      = [("success", Value.bool false), ("agent_type", Value.str "paralegal"),
         ("error", Value.str (key_error "paralegal")), ("content", Value.str ""),
         ("jurisdiction", Value.str "kansas")] :=
  run_single_unknown_role okEngine "gpt-5-mini" "q" "kansas" "paralegal" "" ""
    (by decide) (by decide)

/- ── C10 ────────────────────────────────────────────────────────────── -/

/-- C10: whatever the Completion Engine does — succeed or raise — both
`run_single_agent` and `run_full_crew` return a result dict (the functions
are total: the source's catch-all `except` handler is the failure branch of
the embedding), and that dict always carries at least the fields success,
agent_type, content and jurisdiction. -/
theorem results_total_core_fields (engine : TaskSpec → Except String StepOut)
    (cfg_model query jurisdiction agent_type matter_facts document_type k : String)
    (hk : k ∈ ["success", "agent_type", "content", "jurisdiction"]) :
    (List.lookup k (run_single_agent engine cfg_model query jurisdiction agent_type
        matter_facts document_type).2).isSome = true
    ∧ (List.lookup k (run_full_crew engine cfg_model query jurisdiction matter_facts
        document_type).2).isSome = true := by
  obtain ⟨x, hx⟩ : ∃ x, (run_single_agent engine cfg_model query jurisdiction agent_type
      matter_facts document_type).2
      = single_result (resolve_agent query agent_type) jurisdiction cfg_model x := by
    by_cases hmem : resolve_agent query agent_type ∈ agents_keys
    · exact ⟨(kickoff engine [single_task (resolve_agent query agent_type) query
        (jx_display jurisdiction) matter_facts document_type]).2,
        by simp [run_single_agent, hmem]⟩
    · exact ⟨Except.error (key_error (resolve_agent query agent_type)),
        by simp [run_single_agent, hmem]⟩
  have hf : (run_full_crew engine cfg_model query jurisdiction matter_facts
      document_type).2
      = full_result jurisdiction cfg_model
          (full_tasks query (jx_display jurisdiction) matter_facts document_type).length
          (kickoff engine (full_tasks query (jx_display jurisdiction) matter_facts
            document_type)).2 := rfl
  rw [hx, hf]
  generalize (kickoff engine (full_tasks query (jx_display jurisdiction) matter_facts
    document_type)).2 = y
  generalize (full_tasks query (jx_display jurisdiction) matter_facts
    document_type).length = n
  simp only [List.mem_cons, List.mem_singleton, List.not_mem_nil, or_false] at hk
  rcases hk with rfl | rfl | rfl | rfl
  all_goals cases x <;> cases y <;> exact ⟨rfl, rfl⟩

/-- Witness for C10: the core field "success" is present in both results of
a concrete run. -/
theorem results_total_core_fields_witness :
    (List.lookup "success"
      (run_single_agent badEngine "gpt-5-mini" "hi" "kansas" "researcher" "" "").2).isSome
      = true
    ∧ (List.lookup "success"
      (run_full_crew badEngine "gpt-5-mini" "hi" "kansas" "" "").2).isSome = true :=
  results_total_core_fields badEngine "gpt-5-mini" "hi" "kansas" "researcher" "" ""
    "success" (by decide)

end Clerky
